import Mathlib

/-!
Shallow embedding of the yt-recommender backend core:
`app/services/ai.py` (the analysis dispatcher) and `app/core/worker.py`
(the job pipeline).  External collaborators (the Gemini client, the Mongo
job store, SMTP, the YouTube API and Python's `json.loads`) are modelled
as oracle fields of explicit environment records; all repository logic is
translated from the source.
-/

/-! ### Python string primitives used by the source -/

/-- Whitespace characters stripped by Python `str.strip()`. -/
def pyIsSpace (c : Char) : Bool :=
  c == ' ' || c == '\t' || c == '\n' || c == '\r' || c == '\x0b' || c == '\x0c'

/-- Python `str.strip()`: remove whitespace from both ends. -/
def pyStrip (s : String) : String :=
  ⟨((s.data.dropWhile pyIsSpace).reverse.dropWhile pyIsSpace).reverse⟩

/-- Core of Python `str.replace`: replace every non-overlapping occurrence of
    `pat` left to right.  Fuel-indexed (fuel = remaining length) so that the
    definition is structural and kernel-evaluable; `fuel ≥ s.length` makes the
    fuel-exhaustion branch unreachable. -/
def replaceCharsFuel (pat rep : List Char) : Nat → List Char → List Char
  | _, [] => []
  | 0, s => s
  | fuel + 1, c :: rest =>
    if pat ≠ [] ∧ pat.isPrefixOf (c :: rest) then
      rep ++ replaceCharsFuel pat rep fuel (rest.drop (pat.length - 1))
    else
      c :: replaceCharsFuel pat rep fuel rest

/-- Python `s.replace(pat, rep)`. -/
def pyReplace (s pat rep : String) : String :=
  ⟨replaceCharsFuel pat.data rep.data s.data.length s.data⟩

/-- Python `s.endswith(suffix)`. -/
def pyEndsWith (s suffix : String) : Bool :=
  suffix.data.isSuffixOf s.data

/-- Python slice `s[:n]`. -/
def pySlice (n : Nat) (s : String) : String :=
  ⟨s.data.take n⟩

/-- Python `sep.join(xs)`. -/
def pyJoin (sep : String) : List String → String
  | [] => ""
  | [x] => x
  | x :: xs => x ++ sep ++ pyJoin sep xs

/-- First-occurrence lookup in an association list of strings
    (Python dict indexing for the literal dicts of the source). -/
def lookupStr : List (String × String) → String → Option String
  | [], _ => none
  | (k, v) :: rest, key => if key = k then some v else lookupStr rest key

/-! ### JSON values (the range of Python `json.loads` / the dicts the source builds) -/

/-- A Python/JSON value as produced by `json.loads` and by the dict literals
    of `ai.py`.  Numbers are modelled exactly as rationals (all numeric
    literals of the source are decimal). -/
inductive Json where
  | null : Json
  | bool (b : Bool) : Json
  | str (s : String) : Json
  | num (q : Rat) : Json
  | arr (elems : List Json) : Json
  | obj (fields : List (String × Json)) : Json

/-- Python `dict.get` on a JSON object's field list (first occurrence). -/
def jsonLookup : List (String × Json) → String → Option Json
  | [], _ => none
  | (k, v) :: rest, key => if key = k then some v else jsonLookup rest key

/-- Field access with `null` default, for reading a key of a value that may
    not be an object. -/
def jsonGet (j : Json) (key : String) : Json :=
  match j with
  | .obj fields => (jsonLookup fields key).getD .null
  | _ => .null

/-- `dict.keys()` of a JSON object (empty for non-objects). -/
def objKeys : Json → List String
  | .obj fields => fields.map Prod.fst
  | _ => []

/-- Python truthiness of a JSON value (`if x:`). -/
def jsonTruthy : Json → Bool
  | .null => false
  | .bool b => b
  | .str s => decide (s ≠ "")
  | .num q => decide (q ≠ 0)
  | .arr [] => false
  | .arr (_ :: _) => true
  | .obj [] => false
  | .obj (_ :: _) => true

/-- Python `str(x)` as used for f-string interpolation.  Exact for strings —
    the only shape the fallback and the AnalysisResult schema put in the
    interpolated positions; other values are abstracted. -/
def pyStr : Json → String
  | .str s => s
  | .null => "None"
  | .bool true => "True"
  | .bool false => "False"
  | .num q => toString q
  | .arr _ => "[...]"
  | .obj _ => "\x7b...\x7d"

/-! ### The capability table (`SERVICE_MAP` of ai.py) -/

/-- `SERVICE_MAP` from ai.py: caller-facing service id → capability name. -/
def SERVICE_MAP : List (String × String) :=
  [("1", "semantic_title_engine"),
   ("2", "predictive_ctr_analysis"),
   ("3", "multi_platform_mastery"),
   ("7", "copyright_protection"),
   ("8", "fair_use_analysis"),
   ("10", "trend_intelligence")]

/-- The key set the spec demands of `result.services`: the capability names of
    the requested identifiers that appear in the capability table, in table
    order. -/
def requestedNames (services : List String) : List String :=
  (SERVICE_MAP.filter (fun p => decide (p.1 ∈ services))).map Prod.snd

/-- `result["services"].keys()` of an analysis result. -/
def serviceKeys (j : Json) : List String :=
  objKeys (jsonGet j "services")

/-! ### Video records (`ContentItem`) -/

structure VideoStats where
  viewCount : Option Nat
  likeCount : Option Nat
  commentCount : Option Nat
deriving DecidableEq

/-- A fetched video dict: `title`, `description`, `statistics`; every key may
    be absent (Python `.get` defaults in the source). -/
structure Video where
  title : Option String
  description : Option String
  statistics : Option VideoStats
deriving DecidableEq

/-! ### The fallback generator (`get_fallback_analysis` of ai.py) -/

/-- The fixed `email_summary` dict of the fallback result. -/
def fallback_email_summary : Json :=
  Json.obj [
    ("headline", Json.str "Your channel has untapped growth potential"),
    ("teaser", Json.str
      "We reviewed your recent videos and identified title, CTR, and visibility gaps that are quietly limiting reach."),
    ("key_insights", Json.arr [
      Json.str "Your titles explain content but don’t maximize curiosity",
      Json.str "Click-through rate signals are below platform benchmarks",
      Json.str "You’re missing short-window trends relevant to your niche"]),
    ("cta", Json.str "Open your full AI report to see what to fix first →")]

/-- Canned `semantic_title_engine` entry (service id "1"); the only fallback
    payload that reads the videos: `videos_to_analyze[0].get("title", "Video 1")
    if videos_to_analyze else "Video 1"`. -/
def fallbackSemanticTitleEngine (videos_to_analyze : List Video) : Json :=
  Json.obj [
    ("channel_analysis", Json.obj [
      ("overall_assessment", Json.str
        "Your channel focuses on clarity and depth, but current titles prioritize description over click psychology. This limits discovery despite strong underlying content quality.")]),
    ("suggestions", Json.arr [Json.obj [
      ("original_title", Json.str
        (match videos_to_analyze with
         | [] => "Video 1"
         | v :: _ => v.title.getD "Video 1")),
      ("current_issues", Json.arr [
        Json.str "No strong curiosity gap or emotional trigger",
        Json.str "Title explains topic instead of selling outcome",
        Json.str "Lacks urgency or viewer-centric framing"]),
      ("alternative_titles", Json.arr [
        Json.obj [
          ("new_suggested_title", Json.str "This Mistake Is Costing You Views"),
          ("ctr_potential_rating", Json.num 8),
          ("why_it_s_effective", Json.str
            "Introduces loss aversion and curiosity by implying the viewer is unknowingly hurting growth.")],
        Json.obj [
          ("new_suggested_title", Json.str "What Top Creators Do That You Don’t"),
          ("ctr_potential_rating", Json.num 8),
          ("why_it_s_effective", Json.str
            "Uses authority contrast to trigger comparison and intrigue.")],
        Json.obj [
          ("new_suggested_title", Json.str "I Tested This for 30 Days — The Results Surprised Me"),
          ("ctr_potential_rating", Json.num 7),
          ("why_it_s_effective", Json.str
            "Time-boxed experimentation builds credibility and suspense.")]])]]),
    ("growth_tips", Json.arr [
      Json.str "Frame titles around outcomes, not topics",
      Json.str "Use contrast words like stop, avoid, secret, or proven",
      Json.str "Test curiosity-first titles before descriptive ones"])]

/-- Canned `predictive_ctr_analysis` entry (service id "2"). -/
def fallbackPredictiveCtr : Json :=
  Json.obj [
    ("score", Json.num 4.5),
    ("reasoning", Json.str
      "Titles and positioning are informative but lack emotional pull, reducing click probability compared to similar channels."),
    ("comparison_to_industry_average", Json.str
      "Below average CTR compared to channels in the same category."),
    ("what_is_working_or_missing", Json.obj [
      ("working", Json.str "Clear topic communication and consistent formatting."),
      ("missing", Json.str "Emotional hooks, curiosity gaps, and visual-title alignment.")]),
    ("recommendations", Json.arr [
      Json.str "Add numbers, timeframes, or bold claims to titles",
      Json.str "Align thumbnails with one dominant emotion",
      Json.str "Remove neutral wording in favor of benefit-driven phrasing"]),
    ("potential_increase", Json.str "30–60%"),
    ("psychological_triggers_to_boost_engagement", Json.arr [
      Json.str "Curiosity gap",
      Json.str "Fear of missing out",
      Json.str "Authority comparison"])]

/-- Canned `multi_platform_mastery` entry (service id "3"). -/
def fallbackMultiPlatform : Json :=
  Json.obj [
    ("platforms", Json.obj [
      ("youtube", Json.obj [
        ("score", Json.num 7),
        ("reasoning", Json.str "Strong long-form potential, weaker initial hook."),
        ("strategy", Json.str
          "Optimize first 30 seconds for retention and title-thumbnail cohesion."),
        ("optimization_tips", Json.arr [
          Json.str "Shorten intros",
          Json.str "Reinforce title promise immediately"])]),
      ("x_twitter", Json.obj [
        ("score", Json.num 6),
        ("reasoning", Json.str "Content not adapted to fast-scroll behavior."),
        ("strategy", Json.str "Convert insights into sharp opinion-led threads."),
        ("optimization_tips", Json.arr [
          Json.str "Lead with a bold claim",
          Json.str "Use numbered hooks"])]),
      ("linkedin", Json.obj [
        ("score", Json.num 7),
        ("reasoning", Json.str "Educational tone fits platform expectations."),
        ("strategy", Json.str "Position content as lessons learned or frameworks."),
        ("optimization_tips", Json.arr [
          Json.str "Share behind-the-scenes context",
          Json.str "Tie insights to professional outcomes"])])])]

/-- Canned `copyright_protection` entry (service id "7"). -/
def fallbackCopyright : Json :=
  Json.obj [
    ("risk_level", Json.str "LOW"),
    ("flags", Json.arr []),
    ("assessment", Json.str
      "No immediate copyright risks detected based on available metadata."),
    ("recommendations", Json.arr [
      Json.str "Use royalty-free music only",
      Json.str "Avoid unlicensed third-party clips"])]

/-- Canned `fair_use_analysis` entry (service id "8"). -/
def fallbackFairUse : Json :=
  Json.obj [
    ("score", Json.num 78),
    ("reasoning", Json.str
      "Content appears educational and sufficiently transformative."),
    ("assessment", Json.str
      "Likely to qualify as fair use when paired with original commentary."),
    ("fair_use_factors_breakdown", Json.obj [
      ("purpose_and_character", Json.obj [
        ("score", Json.num 8),
        ("reasoning", Json.str "Educational intent strengthens fair use.")]),
      ("nature_of_work", Json.obj [
        ("score", Json.num 7),
        ("reasoning", Json.str "Primarily factual material.")]),
      ("amount_used", Json.obj [
        ("score", Json.num 6),
        ("reasoning", Json.str "Unknown usage length — review recommended.")]),
      ("market_effect", Json.obj [
        ("score", Json.num 8),
        ("reasoning", Json.str "Unlikely to replace original content demand.")])]),
    ("recommendation_for_legal_safety", Json.str
      "Add explicit commentary and avoid long unaltered clips.")]

/-- Canned `trend_intelligence` entry (service id "10"). -/
def fallbackTrend : Json :=
  Json.obj [
    ("trending_topics", Json.arr [
      Json.obj [
        ("name", Json.str "AI tools creators aren’t using yet"),
        ("growth_percentage", Json.str "120%"),
        ("relevance_rating", Json.num 9),
        ("reasoning", Json.str "High curiosity with low current saturation.")]]),
    ("predictions", Json.arr [
      Json.str "Actionable AI workflows will outperform generic tool lists",
      Json.str "Short, experiment-based videos will gain momentum"]),
    ("actionable_content_ideas", Json.arr [
      Json.str "Testing one underrated AI tool live",
      Json.str "Breaking down why most creators misuse AI"])]

/-- The `services` dict built by `get_fallback_analysis`: one canned entry per
    requested known capability, inserted in the source's fixed order
    (`if "1" in services: ...` down to `if "10" in services: ...`). -/
def fallback_services (videos_to_analyze : List Video) (services : List String) :
    List (String × Json) :=
  (if "1" ∈ services then
     [("semantic_title_engine", fallbackSemanticTitleEngine videos_to_analyze)] else [])
  ++ (if "2" ∈ services then [("predictive_ctr_analysis", fallbackPredictiveCtr)] else [])
  ++ (if "3" ∈ services then [("multi_platform_mastery", fallbackMultiPlatform)] else [])
  ++ (if "7" ∈ services then [("copyright_protection", fallbackCopyright)] else [])
  ++ (if "8" ∈ services then [("fair_use_analysis", fallbackFairUse)] else [])
  ++ (if "10" ∈ services then [("trend_intelligence", fallbackTrend)] else [])

/-- `get_fallback_analysis(videos, services)` of ai.py.  (`services or []` of
    the source is the identity here because `services` is already a list.) -/
def get_fallback_analysis (videos : List Video) (services : List String) : Json :=
  let videos_to_analyze := if videos.length > 3 then videos.take 3 else videos
  Json.obj [
    ("email_summary", fallback_email_summary),
    ("services", Json.obj (fallback_services videos_to_analyze services))]

/-! ### The provider path (`call_gemini_api` / `build_service_instructions`) -/

/-- The `service_prompts` dict of `build_service_instructions`.  The spec
    excludes the wording of prompt text from scope (§1), so each block is
    abridged to its heading line; the keys and the control flow that uses
    them are translated exactly.  No block ends with "ANALYSES:". -/
def service_prompts : List (String × String) :=
  [("1", "1. SEMANTIC TITLE ENGINE (LLM-Driven Headline Generation): ..."),
   ("2", "2. PREDICTIVE CTR ANALYSIS (Thumbnail Saliency Mapping): ..."),
   ("3", "3. MULTI-PLATFORM MASTERY (Cross-Platform Algorithm Alignment): ..."),
   ("7", "4. COPYRIGHT PROTECTION (Content ID Scanning Pre-Upload): ..."),
   ("8", "5. FAIR USE ANALYSIS (Transformative Content Assessment): ..."),
   ("10", "6. TREND INTELLIGENCE (48-Hour Early Trend Detection): ...")]

/-- The `for service_id in services:` loop of `build_service_instructions`:
    append the block of every requested id found in `service_prompts` to the
    accumulator, in caller order; unknown ids add nothing. -/
def appendServicePrompts : List String → String → String
  | [], acc => acc
  | sid :: rest, acc =>
    match lookupStr service_prompts sid with
    | some block => appendServicePrompts rest (acc ++ block ++ "\n\n")
    | none => appendServicePrompts rest acc

/-- `build_service_instructions(services)` of ai.py: concatenate the blocks of
    the requested known services; if none was appended (the result still ends
    with "ANALYSES:" after stripping), ask for a general overview instead. -/
def build_service_instructions (services : List String) : String :=
  let instructions := appendServicePrompts services "PERFORM THE FOLLOWING ANALYSES:\n\n"
  if ¬ pyEndsWith (pyStrip instructions) "ANALYSES:" then instructions
  else "Provide a general channel overview and basic recommendations."

/-- `v.get('statistics', {}).get('viewCount', 'N/A')`-style interpolation. -/
def statStr (n : Option Nat) : String :=
  match n with
  | some k => toString k
  | none => "N/A"

/-- The `video_details` block of `call_gemini_api`: the first three videos
    summarized (title, description truncated to 200 characters, counts). -/
def video_details (videos : List Video) : String :=
  let videos_to_analyze := if videos.length > 3 then videos.take 3 else videos
  pyJoin "\n" (videos_to_analyze.enum.map (fun iv =>
    "\nVIDEO " ++ toString (iv.1 + 1) ++ ":\n- Title: \"" ++ iv.2.title.getD "N/A"
      ++ "\"\n- Description: " ++ pySlice 200 (iv.2.description.getD "N/A")
      ++ "...\n- Views: " ++ statStr (iv.2.statistics.bind (·.viewCount))
      ++ "\n- Likes: " ++ statStr (iv.2.statistics.bind (·.likeCount))
      ++ "\n- Comments: " ++ statStr (iv.2.statistics.bind (·.commentCount))
      ++ "\n"))

/-- The prompt of `call_gemini_api`: fixed text around the video details and
    the service instructions.  The fixed text is abridged (spec §1 keeps
    prompt wording out of scope); what matters downstream is that the prompt
    is a function of exactly these two blocks. -/
def gemini_prompt (videos : List Video) (services : List String) : String :=
  "You are an AI-powered YouTube Intelligence Suite ... CHANNEL VIDEO DATA ...\n"
  ++ video_details videos
  ++ "\n... REQUESTED SERVICES ...\n"
  ++ build_service_instructions services
  ++ "\n... SERVICE EXECUTION RULES ... OUTPUT FORMAT (STRICT) ... Return VALID JSON ONLY. ..."

/-- Python truthiness of `settings.gemini_api_key` (`if not settings.gemini_api_key:`):
    an unset (None) or empty credential is falsy. -/
def keyTruthy : Option String → Bool
  | none => false
  | some s => decide (s ≠ "")

/-- The external world seen by `analyse`: the configured credential, the
    Gemini call (a fallible oracle from the prompt to the raw response text)
    and Python's `json.loads` (an oracle from cleaned text to a parsed value,
    `none` on `JSONDecodeError`). -/
structure GeminiEnv where
  gemini_api_key : Option String
  provider : String → Except String String
  jsonLoads : String → Option Json

/-- The response clean-up of `call_gemini_api`:
    `response_text.replace('```json\n', '').replace('```\n', '').replace('```', '').strip()`. -/
def clean_response (response_text : String) : String :=
  pyStrip (pyReplace (pyReplace (pyReplace response_text "```json\n" "") "```\n" "") "```" "")

/-- `call_gemini_api(videos, channel_stats, services)` of ai.py.  (The unused
    `channel_stats` parameter is dropped.)  A provider failure is an
    exception (`.error`); a response that fails to parse as JSON returns the
    fallback; a parsed response is returned unchanged. -/
def call_gemini_api (env : GeminiEnv) (videos : List Video) (services : List String) :
    Except String Json :=
  match env.provider (gemini_prompt videos services) with
  | .error e => .error e
  | .ok response_text =>
    match env.jsonLoads (clean_response response_text) with
    | some analysis_result => .ok analysis_result
    | none => .ok (get_fallback_analysis videos services)

/-- `analyse(videos, services)` of ai.py: fallback when no credential is
    configured; otherwise try the provider and degrade any exception to the
    fallback.  Total — no failure escapes. -/
def analyse (env : GeminiEnv) (videos : List Video) (services : List String) : Json :=
  if keyTruthy env.gemini_api_key then
    match call_gemini_api env videos services with
    | .ok result => result
    | .error _ => get_fallback_analysis videos services
  else
    get_fallback_analysis videos services

/-! ### The job pipeline (`process_job` of worker.py) -/

/-- The fields of a stored Job that `process_job` reads.  (`job.get("services",
    [])` defaults a missing key to the empty list, so `services` is total.) -/
structure Job where
  channel_name : String
  email : String
  services : List String

/-- One partial update passed to `update_job(job_id, {...})`.  Absent fields
    are not touched by the write.  `sets_updated_at` records the explicit
    `updated_at` timestamp of the stage-1 success dict. -/
structure JobUpdate where
  channel_id : Option String := none
  status : Option String := none
  error : Option String := none
  videos : Option (List Video) := none
  ai_report : Option Json := none
  sets_updated_at : Bool := false

/-- Stage-1 success write: `{"channel_id": ..., "status": "channel_resolved",
    "updated_at": ...}`. -/
def resolvedUpdate (channel_id : String) : JobUpdate :=
  { channel_id := some channel_id, status := some "channel_resolved", sets_updated_at := true }

/-- Failure write of stages 1–3: `{"status": "failed", "error": str(e)}`. -/
def failedUpdate (e : String) : JobUpdate :=
  { status := some "failed", error := some e }

/-- Stage-2 success write: `{"videos": ..., "status": "videos_fetched"}`. -/
def videosUpdate (videos : List Video) : JobUpdate :=
  { videos := some videos, status := some "videos_fetched" }

/-- Stage-3 success write: `{"ai_report": ..., "status": "completed"}`. -/
def completedUpdate (report : Json) : JobUpdate :=
  { ai_report := some report, status := some "completed" }

/-- The exception message when stage 3 re-reads the job, gets `None`, and
    calls `.get` on it (ASCII quotes of the CPython message omitted). -/
def noneTypeGetMsg : String :=
  "AttributeError: NoneType object has no attribute get"

/-- The arguments of the single `send_email` call. -/
structure EmailAttempt where
  to_email : String
  subject : String
  body : String

/-- Everything `process_job` makes observable: the ordered `update_job`
    writes, the notification attempt (if the call was reached) and the
    logged notification error (if stage 4 raised). -/
structure WorkerResult where
  writes : List JobUpdate
  emailAttempt : Option EmailAttempt
  emailError : Option String

/-- The external world seen by one run of `process_job`: the two job-store
    reads, the resolver, the fetcher, the analysis dispatcher's environment
    and the SMTP send outcome. -/
structure WorkerEnv where
  job0 : Option Job
  resolve_channel : Except String String
  fetch_latest_videos : Except String (List Video)
  job1 : Option Job
  ai : GeminiEnv
  send_email : Except String Unit

/-- The fixed part of the notification body (copied byte-for-byte from
    worker.py, whose literals are double-encoded in the source file). -/
def email_base_text : String :=
  "Your AI analysis report is ready ðŸŽ‰\n\nPlease log in to your dashboard to view the full report.\n\nâ€” TubeIntelligence"

/-- The fixed notification subject line. -/
def emailSubject : String :=
  "Your AI Analysis Report by TubeIntelligence is here!"

/-- `"\n".join(f"- {item}" for item in key_insights[:3])`.  A string also
    slices and iterates in Python (per character); any other value raises
    `TypeError`. -/
def formatInsights : Json → Except String String
  | .arr items =>
    .ok (pyJoin "\n" ((items.take 3).map (fun item => "- " ++ pyStr item)))
  | .str s =>
    .ok (pyJoin "\n" ((s.data.take 3).map (fun c => "- " ++ c.toString)))
  | _ => .error "TypeError: object is not subscriptable"

/-- The stage-4 body construction of worker.py: start from the fixed text;
    if the report is a dict with a truthy `email_summary`, append headline,
    teaser, up to three bulleted key insights and the cta, each only when
    truthy.  A truthy non-dict `email_summary` raises (`.get` on it), which
    stage 4 catches. -/
def buildEmailBody (report : Json) : Except String String :=
  let email_summary : Json :=
    match report with
    | .obj fields =>
      match jsonLookup fields "email_summary" with
      | some v => if jsonTruthy v then v else Json.obj []
      | none => Json.obj []
    | _ => Json.obj []
  if jsonTruthy email_summary then
    match email_summary with
    | .obj es =>
      let headline := (jsonLookup es "headline").getD (Json.str "")
      let teaser := (jsonLookup es "teaser").getD (Json.str "")
      let key_insights := (jsonLookup es "key_insights").getD (Json.arr [])
      let cta := (jsonLookup es "cta").getD (Json.str "")
      let b1 := if jsonTruthy headline then email_base_text ++ "\n\n" ++ pyStr headline
                else email_base_text
      let b2 := if jsonTruthy teaser then b1 ++ "\n" ++ pyStr teaser else b1
      match (if jsonTruthy key_insights then
               (formatInsights key_insights).map
                 (fun formatted => "\n\nKey insights:\n" ++ formatted)
             else .ok "") with
      | .error e => .error e
      | .ok insightsPart =>
        let b3 := b2 ++ insightsPart
        .ok (if jsonTruthy cta then b3 ++ "\n\n" ++ pyStr cta else b3)
    | _ => .error "AttributeError: object has no attribute get"
  else
    .ok email_base_text

/-- `process_job(job_id)` of worker.py as a function from the oracle
    environment to its observable effects, stage by stage:
    1. resolve → write `resolvedUpdate` / `failedUpdate` and stop;
    2. fetch → write `videosUpdate` / `failedUpdate` and stop;
    3. re-read the job, run `analyse` (total) → write `completedUpdate` /
       `failedUpdate` and stop;
    4. build the body and send the email; any failure is only logged. -/
def process_job (env : WorkerEnv) : WorkerResult :=
  match env.job0 with
  | none => { writes := [], emailAttempt := none, emailError := none }
  | some _job =>
    match env.resolve_channel with
    | .error e =>
      { writes := [failedUpdate e], emailAttempt := none, emailError := none }
    | .ok channel_id =>
      match env.fetch_latest_videos with
      | .error e =>
        { writes := [resolvedUpdate channel_id, failedUpdate e],
          emailAttempt := none, emailError := none }
      | .ok videos =>
        match env.job1 with
        | none =>
          { writes := [resolvedUpdate channel_id, videosUpdate videos,
                       failedUpdate noneTypeGetMsg],
            emailAttempt := none, emailError := none }
        | some job =>
          let report := analyse env.ai videos job.services
          let writes := [resolvedUpdate channel_id, videosUpdate videos,
                         completedUpdate report]
          match buildEmailBody report with
          | .error e => { writes := writes, emailAttempt := none, emailError := some e }
          | .ok body =>
            let attempt : EmailAttempt :=
              { to_email := job.email, subject := emailSubject, body := body }
            match env.send_email with
            | .ok _ => { writes := writes, emailAttempt := some attempt, emailError := none }
            | .error e =>
              { writes := writes, emailAttempt := some attempt, emailError := some e }

/-- The sequence of `status` values persisted by one run. -/
def statusesOf (r : WorkerResult) : List String :=
  r.writes.filterMap (fun u => u.status)

/-- Position of a status on the forward chain of the spec. -/
def statusRank : String → Option Nat
  | "pending" => some 0
  | "channel_resolved" => some 1
  | "videos_fetched" => some 2
  | "completed" => some 3
  | _ => none

/-- One allowed status transition: forward along the chain, or a jump to
    `failed` from a non-terminal state. -/
def advanceOK (a b : String) : Bool :=
  (b == "failed" && a != "failed" && a != "completed")
  || (match statusRank a, statusRank b with
      | some i, some j => decide (i < j)
      | _, _ => false)

/-- Does a write set a terminal status? -/
def isTerminalWrite (u : JobUpdate) : Bool :=
  u.status == some "completed" || u.status == some "failed"

/-! ### Helper lemmas -/

/-- The services key set of the fallback result is exactly the requested
    known capability names, for any requested list. -/
theorem serviceKeys_fallback (videos : List Video) (services : List String) :
    serviceKeys (get_fallback_analysis videos services) = requestedNames services := by
  by_cases h1 : "1" ∈ services <;> by_cases h2 : "2" ∈ services <;>
    by_cases h3 : "3" ∈ services <;> by_cases h7 : "7" ∈ services <;>
    by_cases h8 : "8" ∈ services <;> by_cases h10 : "10" ∈ services <;>
    simp [serviceKeys, get_fallback_analysis, jsonGet, jsonLookup, objKeys,
      fallback_services, requestedNames, SERVICE_MAP, h1, h2, h3, h7, h8, h10]

/-! ### C2, C8, C3 -/

/-- C2: for every videos list and every requested list of identifiers (so in
    particular for every subset of `{1,2,3,7,8,10}`, the empty one included),
    the fallback result's `services` keys are exactly the capability names of
    the requested identifiers that appear in the capability table — each
    requested known identifier contributes its entry and nothing else. -/
theorem fallback_key_set_exact (videos : List Video) (services : List String) :
    serviceKeys (get_fallback_analysis videos services) = requestedNames services :=
  serviceKeys_fallback videos services

/-- C8: the fallback generator is deterministic — two calls on identical
    `(videos, services)` inputs return identical results (and in particular
    identical services key sets); the definition takes no other input. -/
theorem fallback_deterministic (videos₁ videos₂ : List Video)
    (services₁ services₂ : List String)
    (hv : videos₁ = videos₂) (hs : services₁ = services₂) :
    get_fallback_analysis videos₁ services₁ = get_fallback_analysis videos₂ services₂ ∧
    serviceKeys (get_fallback_analysis videos₁ services₁) =
      serviceKeys (get_fallback_analysis videos₂ services₂) := by
  subst hv; subst hs; exact ⟨rfl, rfl⟩

theorem fallback_deterministic_witness :
    get_fallback_analysis [] ["1", "7"] = get_fallback_analysis [] ["1", "7"] ∧
    serviceKeys (get_fallback_analysis [] ["1", "7"]) =
      serviceKeys (get_fallback_analysis [] ["1", "7"]) :=
  fallback_deterministic [] [] ["1", "7"] ["1", "7"] rfl rfl

/-- C3: `analyse` is total (it never raises: it is a function into results)
    and degrades every internal failure to the fallback result: no configured
    credential, a provider exception, and a response that fails to parse as
    JSON after the code-fence clean-up all return the fallback. -/
theorem analyse_never_raises (env : GeminiEnv) (videos : List Video)
    (services : List String) :
    (keyTruthy env.gemini_api_key = false →
      analyse env videos services = get_fallback_analysis videos services) ∧
    (∀ e, env.provider (gemini_prompt videos services) = .error e →
      analyse env videos services = get_fallback_analysis videos services) ∧
    (∀ t, env.provider (gemini_prompt videos services) = .ok t →
      env.jsonLoads (clean_response t) = none →
      analyse env videos services = get_fallback_analysis videos services) := by
  refine ⟨fun h => by simp [analyse, h], fun e he => ?_, fun t ht hp => ?_⟩
  · by_cases hk : keyTruthy env.gemini_api_key <;>
      simp [analyse, call_gemini_api, he, hk]
  · by_cases hk : keyTruthy env.gemini_api_key <;>
      simp [analyse, call_gemini_api, ht, hp, hk]

/-- A concrete environment with no credential configured and a dead provider. -/
def envNoKey : GeminiEnv :=
  { gemini_api_key := none,
    provider := fun _ => .error "offline",
    jsonLoads := fun _ => none }

theorem analyse_never_raises_witness :
    analyse envNoKey [] ["1"] = get_fallback_analysis [] ["1"] :=
  (analyse_never_raises envNoKey [] ["1"]).1 rfl

/-! ### C7: unknown identifiers -/

/-- An identifier absent from `SERVICE_MAP` is also absent from
    `service_prompts` and differs from each known id. -/
theorem unknown_id_facts {id : String} (h : lookupStr SERVICE_MAP id = none) :
    lookupStr service_prompts id = none ∧
    id ≠ "1" ∧ id ≠ "2" ∧ id ≠ "3" ∧ id ≠ "7" ∧ id ≠ "8" ∧ id ≠ "10" := by
  by_cases c1 : id = "1" <;> by_cases c2 : id = "2" <;> by_cases c3 : id = "3" <;>
    by_cases c7 : id = "7" <;> by_cases c8 : id = "8" <;> by_cases c10 : id = "10" <;>
    simp_all [lookupStr, SERVICE_MAP, service_prompts]

/-- The instruction-building loop skips ids with no prompt block, so removing
    such an id from the request changes nothing. -/
theorem appendServicePrompts_filter {id : String}
    (hid : lookupStr service_prompts id = none) :
    ∀ (l : List String) (acc : String),
      appendServicePrompts (l.filter (fun s => s != id)) acc =
        appendServicePrompts l acc := by
  intro l
  induction l with
  | nil => intro acc; rfl
  | cons sid rest ih =>
    intro acc
    by_cases hs : sid = id
    · subst hs
      simpa [List.filter_cons, appendServicePrompts, hid] using ih acc
    · cases hblock : lookupStr service_prompts sid <;>
        simp [List.filter_cons, hs, appendServicePrompts, hblock, ih]

/-- Membership in the six known ids is unchanged by removing an unknown id. -/
theorem mem_filter_unknown {a id : String} (hne : a ≠ id) (l : List String) :
    (a ∈ l.filter (fun s => s != id)) ↔ a ∈ l := by
  simp [List.mem_filter, hne]

/-- The fallback result is unchanged by removing an unknown id. -/
theorem fallback_filter_unknown {id : String}
    (h : lookupStr SERVICE_MAP id = none) (videos : List Video)
    (services : List String) :
    get_fallback_analysis videos (services.filter (fun s => s != id)) =
      get_fallback_analysis videos services := by
  obtain ⟨-, n1, n2, n3, n7, n8, n10⟩ := unknown_id_facts h
  simp only [get_fallback_analysis, fallback_services,
    mem_filter_unknown (Ne.symm n1), mem_filter_unknown (Ne.symm n2),
    mem_filter_unknown (Ne.symm n3), mem_filter_unknown (Ne.symm n7),
    mem_filter_unknown (Ne.symm n8), mem_filter_unknown (Ne.symm n10)]

/-- The provider prompt is unchanged by removing an unknown id (the
    instruction block skips it). -/
theorem gemini_prompt_filter_unknown {id : String}
    (h : lookupStr SERVICE_MAP id = none) (videos : List Video)
    (services : List String) :
    gemini_prompt videos (services.filter (fun s => s != id)) =
      gemini_prompt videos services := by
  obtain ⟨hp, -⟩ := unknown_id_facts h
  unfold gemini_prompt build_service_instructions
  rw [appendServicePrompts_filter hp]

/-- C7: an identifier absent from the capability table is silently ignored on
    every path of `analyse`: the result — and so the services key set — is
    the same as with that identifier removed from the request, and no error
    is raised (`analyse` is total). -/
theorem analyse_ignores_unknown_ids (env : GeminiEnv) (videos : List Video)
    (services : List String) (id : String)
    (h : lookupStr SERVICE_MAP id = none) :
    analyse env videos services =
      analyse env videos (services.filter (fun s => s != id)) ∧
    serviceKeys (analyse env videos services) =
      serviceKeys (analyse env videos (services.filter (fun s => s != id))) := by
  have hmain : analyse env videos services =
      analyse env videos (services.filter (fun s => s != id)) := by
    unfold analyse call_gemini_api
    rw [gemini_prompt_filter_unknown h, fallback_filter_unknown h]
  exact ⟨hmain, congrArg serviceKeys hmain⟩

theorem analyse_ignores_unknown_ids_witness :
    analyse envNoKey [] ["1", "99"] = analyse envNoKey [] ["1"] ∧
    serviceKeys (analyse envNoKey [] ["1", "99"]) =
      serviceKeys (analyse envNoKey [] ["1"]) :=
  analyse_ignores_unknown_ids envNoKey [] ["1", "99"] "99" (by decide)

/-! ### C1: the key-set invariant across both paths -/

/-- A provider response text whose `services` object carries a hallucinated
    extra key next to the requested one. -/
def c1ResponseText : String :=
  "\x7b\"services\": \x7b\"semantic_title_engine\": \x7b\x7d, \"pricing_advice\": \x7b\x7d\x7d\x7d"

/-- The value Python's `json.loads` yields on `c1ResponseText`. -/
def c1ParsedJson : Json :=
  Json.obj [("services",
    Json.obj [("semantic_title_engine", Json.obj []),
              ("pricing_advice", Json.obj [])])]

/-- `json.loads` pinned on the counterexample response (the real `json.loads`
    maps exactly this text to exactly this value). -/
def c1JsonLoads (s : String) : Option Json :=
  if s = c1ResponseText then some c1ParsedJson else none

/-- A configured environment whose provider answers with the nonconforming
    response. -/
def c1Env : GeminiEnv :=
  { gemini_api_key := some "test-key",
    provider := fun _ => .ok c1ResponseText,
    jsonLoads := c1JsonLoads }

/-- C1 counterexample: on the provider path, a response whose `services` keys
    include an extra key parses fine and is returned unchanged — the key set
    is not the requested one, and the response is neither routed to fallback
    nor filtered. -/
theorem provider_keys_unvalidated :
    serviceKeys (analyse c1Env [] ["1"]) ≠ requestedNames ["1"] ∧
    analyse c1Env [] ["1"] = c1ParsedJson := by
  exact ⟨by decide, rfl⟩

/-- C1 (amended): the key-set invariant holds exactly on every fallback
    route — no configured credential, a provider exception, or a parse
    failure; on the provider path a successfully parsed response is returned
    unchanged, with no validation or filtering of its `services` keys, so a
    nonconforming provider response violates the invariant. -/
theorem analyse_key_set_contract (env : GeminiEnv) (videos : List Video)
    (services : List String) :
    (keyTruthy env.gemini_api_key = false →
      serviceKeys (analyse env videos services) = requestedNames services) ∧
    (∀ e, env.provider (gemini_prompt videos services) = .error e →
      serviceKeys (analyse env videos services) = requestedNames services) ∧
    (∀ t, env.provider (gemini_prompt videos services) = .ok t →
      env.jsonLoads (clean_response t) = none →
      serviceKeys (analyse env videos services) = requestedNames services) ∧
    (∀ t j, keyTruthy env.gemini_api_key = true →
      env.provider (gemini_prompt videos services) = .ok t →
      env.jsonLoads (clean_response t) = some j →
      analyse env videos services = j) := by
  refine ⟨fun h => ?_, fun e he => ?_, fun t ht hp => ?_, fun t j hk ht hp => ?_⟩
  · simp [analyse, h, serviceKeys_fallback]
  · by_cases hk : keyTruthy env.gemini_api_key <;>
      simp [analyse, call_gemini_api, he, hk, serviceKeys_fallback]
  · by_cases hk : keyTruthy env.gemini_api_key <;>
      simp [analyse, call_gemini_api, ht, hp, hk, serviceKeys_fallback]
  · simp [analyse, call_gemini_api, ht, hp, hk]

theorem analyse_key_set_contract_witness :
    serviceKeys (analyse envNoKey [] ["1", "7"]) = requestedNames ["1", "7"] :=
  (analyse_key_set_contract envNoKey [] ["1", "7"]).1 rfl

/-! ### C4, C10: stage failures and the missing-job guard -/

/-- C4: when a stage of 1–3 fails, `process_job` persists exactly the success
    updates of the earlier stages plus one failure update recording the error
    message, runs no later stage, and attempts no notification; when every
    stage succeeds, it persists exactly one update per stage with that
    stage's fields and advanced status. -/
theorem stage_failure_single_write (env : WorkerEnv) (j : Job)
    (h0 : env.job0 = some j) :
    (∀ e, env.resolve_channel = .error e →
      process_job env =
        { writes := [failedUpdate e], emailAttempt := none, emailError := none }) ∧
    (∀ cid e, env.resolve_channel = .ok cid →
      env.fetch_latest_videos = .error e →
      process_job env =
        { writes := [resolvedUpdate cid, failedUpdate e],
          emailAttempt := none, emailError := none }) ∧
    (∀ cid vs, env.resolve_channel = .ok cid →
      env.fetch_latest_videos = .ok vs → env.job1 = none →
      process_job env =
        { writes := [resolvedUpdate cid, videosUpdate vs, failedUpdate noneTypeGetMsg],
          emailAttempt := none, emailError := none }) ∧
    (∀ cid vs j1, env.resolve_channel = .ok cid →
      env.fetch_latest_videos = .ok vs → env.job1 = some j1 →
      (process_job env).writes =
        [resolvedUpdate cid, videosUpdate vs,
         completedUpdate (analyse env.ai vs j1.services)]) := by
  refine ⟨fun e he => ?_, fun cid e hc hf => ?_, fun cid vs hc hf hj => ?_,
    fun cid vs j1 hc hf hj => ?_⟩
  · simp [process_job, h0, he]
  · simp [process_job, h0, hc, hf]
  · simp [process_job, h0, hc, hf, hj]
  · cases hb : buildEmailBody (analyse env.ai vs j1.services) with
    | error msg => simp [process_job, h0, hc, hf, hj, hb]
    | ok body =>
      cases hs : env.send_email <;> simp [process_job, h0, hc, hf, hj, hb, hs]

/-- The job record used by the concrete witnesses. -/
def jobAcme : Job :=
  { channel_name := "AcmeChannel", email := "user@example.com", services := ["1", "7"] }

/-- A run whose channel resolution fails. -/
def envResolveFail : WorkerEnv :=
  { job0 := some jobAcme,
    resolve_channel := .error "channel not found",
    fetch_latest_videos := .error "unreachable",
    job1 := none,
    ai := envNoKey,
    send_email := .ok () }

theorem stage_failure_single_write_witness :
    process_job envResolveFail =
      { writes := [failedUpdate "channel not found"],
        emailAttempt := none, emailError := none } :=
  (stage_failure_single_write envResolveFail jobAcme rfl).1 "channel not found" rfl

/-- C10: when the initial job-store read finds no job, `process_job` returns
    at once: no write, no notification attempt, no logged error — and the
    result does not depend on any other collaborator (no external call is
    consulted). -/
theorem missing_job_noop (env : WorkerEnv) (h : env.job0 = none) :
    process_job env = { writes := [], emailAttempt := none, emailError := none } ∧
    (∀ env' : WorkerEnv, env'.job0 = none → process_job env = process_job env') := by
  refine ⟨by simp [process_job, h], fun env' h' => by simp [process_job, h, h']⟩

/-- A run whose initial job-store read finds nothing. -/
def envMissingJob : WorkerEnv :=
  { job0 := none,
    resolve_channel := .ok "UC123",
    fetch_latest_videos := .ok [],
    job1 := some jobAcme,
    ai := envNoKey,
    send_email := .ok () }

theorem missing_job_noop_witness :
    process_job envMissingJob =
      { writes := [], emailAttempt := none, emailError := none } :=
  (missing_job_noop envMissingJob rfl).1

/-! ### C5: forward-only status, terminal states final -/

/-- Exhaustive case list of the write traces one run can produce. -/
theorem process_job_writes_cases (env : WorkerEnv) :
    (process_job env).writes = [] ∨
    (∃ e, (process_job env).writes = [failedUpdate e]) ∨
    (∃ cid e, (process_job env).writes = [resolvedUpdate cid, failedUpdate e]) ∨
    (∃ cid vs, (process_job env).writes =
      [resolvedUpdate cid, videosUpdate vs, failedUpdate noneTypeGetMsg]) ∨
    (∃ cid vs r, (process_job env).writes =
      [resolvedUpdate cid, videosUpdate vs, completedUpdate r]) := by
  rcases env with ⟨job0, res, fetch, job1, ai, send⟩
  cases job0 with
  | none => exact .inl rfl
  | some j =>
    cases res with
    | error e => exact .inr (.inl ⟨e, rfl⟩)
    | ok cid =>
      cases fetch with
      | error e => exact .inr (.inr (.inl ⟨cid, e, rfl⟩))
      | ok vs =>
        cases job1 with
        | none => exact .inr (.inr (.inr (.inl ⟨cid, vs, rfl⟩)))
        | some j1 =>
          refine .inr (.inr (.inr (.inr ⟨cid, vs, analyse ai vs j1.services, ?_⟩)))
          cases hb : buildEmailBody (analyse ai vs j1.services) with
          | error msg => simp [process_job, hb]
          | ok body =>
            cases send with
            | error e => simp [process_job, hb]
            | ok u => simp [process_job, hb]

/-- C5: starting from `pending`, the persisted status sequence of one run
    only moves forward along
    `pending → channel_resolved → videos_fetched → completed`, or jumps to
    `failed` from a non-terminal state; a write that sets `completed` or
    `failed` is the last write of the run — nothing mutates the job after a
    terminal status. -/
theorem status_forward_only (env : WorkerEnv) :
    List.Chain (fun a b => advanceOK a b = true) "pending"
      (statusesOf (process_job env)) ∧
    (process_job env).writes.dropLast.all (fun u => !isTerminalWrite u) = true := by
  rcases process_job_writes_cases env with h | ⟨e, h⟩ | ⟨cid, e, h⟩ |
    ⟨cid, vs, h⟩ | ⟨cid, vs, r, h⟩
  · refine ⟨?_, by rw [h]; rfl⟩
    have hs : statusesOf (process_job env) = [] := by
      unfold statusesOf; rw [h]; rfl
    rw [hs]
    exact List.Chain.nil
  · refine ⟨?_, by rw [h]; rfl⟩
    have hs : statusesOf (process_job env) = ["failed"] := by
      unfold statusesOf; rw [h]; rfl
    rw [hs]
    exact List.Chain.cons (by decide) List.Chain.nil
  · refine ⟨?_, by rw [h]; rfl⟩
    have hs : statusesOf (process_job env) = ["channel_resolved", "failed"] := by
      unfold statusesOf; rw [h]; rfl
    rw [hs]
    exact List.Chain.cons (by decide) (List.Chain.cons (by decide) List.Chain.nil)
  · refine ⟨?_, by rw [h]; rfl⟩
    have hs : statusesOf (process_job env) =
        ["channel_resolved", "videos_fetched", "failed"] := by
      unfold statusesOf; rw [h]; rfl
    rw [hs]
    exact List.Chain.cons (by decide)
      (List.Chain.cons (by decide) (List.Chain.cons (by decide) List.Chain.nil))
  · refine ⟨?_, by rw [h]; rfl⟩
    have hs : statusesOf (process_job env) =
        ["channel_resolved", "videos_fetched", "completed"] := by
      unfold statusesOf; rw [h]; rfl
    rw [hs]
    exact List.Chain.cons (by decide)
      (List.Chain.cons (by decide) (List.Chain.cons (by decide) List.Chain.nil))

/-! ### C6: notification failure is invisible in job state -/

/-- C6: after full success through analysis, a notification failure — in
    building the body or in sending the email — is caught and logged and
    causes no further JobStore write: the persisted writes are exactly the
    three success updates, none sets an error, and the last persisted status
    is `completed`. -/
theorem notification_failure_invisible (env : WorkerEnv) (j j1 : Job)
    (cid : String) (vs : List Video) (e : String)
    (h0 : env.job0 = some j) (h1 : env.resolve_channel = .ok cid)
    (h2 : env.fetch_latest_videos = .ok vs) (h3 : env.job1 = some j1)
    (h4 : env.send_email = .error e) :
    (process_job env).writes =
      [resolvedUpdate cid, videosUpdate vs,
       completedUpdate (analyse env.ai vs j1.services)] ∧
    (∀ u ∈ (process_job env).writes, u.error = none) ∧
    (statusesOf (process_job env)).getLast? = some "completed" ∧
    (∀ b, buildEmailBody (analyse env.ai vs j1.services) = .ok b →
      (process_job env).emailAttempt =
        some { to_email := j1.email, subject := emailSubject, body := b } ∧
      (process_job env).emailError = some e) ∧
    (∀ msg, buildEmailBody (analyse env.ai vs j1.services) = .error msg →
      (process_job env).emailAttempt = none ∧
      (process_job env).emailError = some msg) := by
  have hw : (process_job env).writes =
      [resolvedUpdate cid, videosUpdate vs,
       completedUpdate (analyse env.ai vs j1.services)] := by
    cases hb : buildEmailBody (analyse env.ai vs j1.services) with
    | error msg => simp [process_job, h0, h1, h2, h3, hb]
    | ok body => simp [process_job, h0, h1, h2, h3, h4, hb]
  refine ⟨hw, ?_, ?_, fun b hb => ?_, fun msg hb => ?_⟩
  · intro u hu
    rw [hw] at hu
    simp only [List.mem_cons, List.not_mem_nil, or_false] at hu
    rcases hu with rfl | rfl | rfl <;> rfl
  · unfold statusesOf; rw [hw]; rfl
  · constructor <;> simp [process_job, h0, h1, h2, h3, h4, hb]
  · constructor <;> simp [process_job, h0, h1, h2, h3, hb]

/-- A fully successful run whose SMTP send fails. -/
def envEmailFail : WorkerEnv :=
  { job0 := some jobAcme,
    resolve_channel := .ok "UC123",
    fetch_latest_videos := .ok [],
    job1 := some jobAcme,
    ai := envNoKey,
    send_email := .error "smtp unavailable" }

theorem notification_failure_invisible_witness :
    (process_job envEmailFail).writes =
      [resolvedUpdate "UC123", videosUpdate [],
       completedUpdate (analyse envNoKey [] ["1", "7"])] :=
  (notification_failure_invisible envEmailFail jobAcme jobAcme "UC123" [] "smtp unavailable"
    rfl rfl rfl rfl rfl).1

/-! ### C9: the notification body -/

/-- The email body as the claim words it (refinement target, built from the
    spec's sentence, to be compared with `buildEmailBody` from the source):
    the fixed greeting, then the headline, the teaser, at most the first 3
    key insights each rendered as a bulleted line, and the call-to-action, in
    that order, each section appended only when its value is non-empty. -/
def emailBodySpec (headline teaser : String) (key_insights : List String)
    (cta : String) : String :=
  email_base_text
  ++ (if headline ≠ "" then "\n\n" ++ headline else "")
  ++ (if teaser ≠ "" then "\n" ++ teaser else "")
  ++ (if key_insights ≠ [] then
        "\n\nKey insights:\n"
          ++ pyJoin "\n" ((key_insights.take 3).map (fun item => "- " ++ item))
      else "")
  ++ (if cta ≠ "" then "\n\n" ++ cta else "")

/-- `str(x)` of a string is itself. -/
theorem pyStr_str (s : String) : pyStr (Json.str s) = s := rfl

/-- Bulleting an insight after injecting it as a JSON string is bulleting the
    string. -/
theorem bullet_comp_str :
    ((fun item => "- " ++ pyStr item) ∘ Json.str) = (fun item : String => "- " ++ item) :=
  funext fun _ => rfl

/-- C9: for a completed job whose analysis result carries a schema-shaped
    `email_summary` (string headline/teaser/cta, a list of string insights),
    the body the worker builds is exactly the spec's: headline, teaser, at
    most the first 3 insights as bulleted lines, and the cta, in that order,
    each appended only when non-empty. -/
theorem email_body_matches_spec (fields es : List (String × Json))
    (headline teaser cta : String) (insights : List String)
    (hes : jsonLookup fields "email_summary" = some (Json.obj es))
    (hh : jsonLookup es "headline" = some (Json.str headline))
    (ht : jsonLookup es "teaser" = some (Json.str teaser))
    (hk : jsonLookup es "key_insights" = some (Json.arr (insights.map Json.str)))
    (hc : jsonLookup es "cta" = some (Json.str cta)) :
    buildEmailBody (Json.obj fields) =
      .ok (emailBodySpec headline teaser insights cta) := by
  cases es with
  | nil => simp [jsonLookup] at hh
  | cons p ps =>
    by_cases h1 : headline = "" <;> by_cases h2 : teaser = "" <;>
      by_cases h3 : cta = "" <;>
      cases insights with
      | nil =>
        simp [buildEmailBody, hes, hh, ht, hk, hc, jsonTruthy, emailBodySpec,
          formatInsights, pyStr, h1, h2, h3, String.append_assoc, String.append_empty]
      | cons i is =>
        simp [buildEmailBody, hes, hh, ht, hk, hc, jsonTruthy, emailBodySpec,
          formatInsights, pyStr_str, h1, h2, h3, String.append_assoc, String.append_empty,
          List.map_take, List.map_map, bullet_comp_str, Except.map]

/-- A schema-shaped report with four key insights (only three may appear). -/
def c9Report : Json :=
  Json.obj [("email_summary", Json.obj [
    ("headline", Json.str "H"),
    ("teaser", Json.str "T"),
    ("key_insights", Json.arr [Json.str "i1", Json.str "i2", Json.str "i3", Json.str "i4"]),
    ("cta", Json.str "C")])]

theorem email_body_matches_spec_witness :
    buildEmailBody c9Report = .ok (emailBodySpec "H" "T" ["i1", "i2", "i3", "i4"] "C") :=
  email_body_matches_spec _ _ "H" "T" "C" ["i1", "i2", "i3", "i4"] rfl rfl rfl rfl rfl
